import Mathlib

/-!
Shallow embedding of the booking core of the mpti-backend repository
(booking service, payment callback service, SQL repository layer) and
proofs about its specification claims.

Conventions of the embedding:
* The bookings table is a `List Booking`; the payments table a `List Payment`.
* SQL UPDATE statements become `List.map` with the row-level update guarded
  by the WHERE clause; sqlc `:exec` queries discard the affected-row count
  and report no error when zero rows match, so the embedded operations
  return no error in that case either.
* `pgtype.Time` values are the microseconds-since-midnight integer computed
  by helper.PgTimeFromString / helper.PgTimeFromTime.
* Wall-clock instants in the application timezone are abstracted to a `Nat`
  via a strictly monotone encoding `bookingInstant` (only ordering and
  equality of instants are used by the source, through time.Time.After).
* Calendar dates travel as their canonical "YYYY-MM-DD" strings, the form
  in which the service hands them to PgDate; equality of such strings is
  equality of dates.
-/

namespace Mpti

/-- Booking row, from database CREATE TABLE bookings (src/unnamed/part_025).
Columns not read or written by any embedded operation (created_at) are
omitted; total_price is NUMERIC holding the integral amount. -/
structure Booking where
  id : Nat
  userId : Nat
  fieldId : Nat
  bookingDate : String
  startTime : Nat
  endTime : Nat
  totalPrice : Int
  status : String
  expiresAt : Nat
  canceledAt : Option Nat
  canceledBy : Option String
  updatedAt : Nat
  deletedAt : Option Nat
deriving DecidableEq, Repr

/-- Payment row, from database/postgres/domains/payments/schema.sql. -/
structure Payment where
  bookingId : Nat
  paymentMethod : String
  paymentStatus : String
  transactionId : String
  paidAt : Option Nat
  updatedAt : Nat
deriving DecidableEq, Repr

/-! Constants from pkg/constant (src/pkg/postgres/postgres.go, second unit). -/

def BookingStatusPending : String := "PENDING"
def BookingStatusCanceled : String := "CANCELLED"
def BookingStatusExpired : String := "EXPIRED"
def BookingStatusPaid : String := "PAID"
def BookingStatusConfirmed : String := "CONFIRMED"
def BookingCanceledByUser : String := "user"
def PaymentStatusPaid : String := "PAID"
def PaymentStatusPending : String := "PENDING"
def PaymentUnknownMethod : String := "UNKNOWN"
def PaymentCashMethod : String := "CASH"
def UserRoleAdmin : String := "9"
def UserRoleStaff : String := "2"

/-- The five booking status enumeration values of the data model. -/
def bookingStatusEnum : List String :=
  [BookingStatusPending, BookingStatusConfirmed, BookingStatusPaid,
   BookingStatusCanceled, BookingStatusExpired]

/-! Error taxonomy, from pkg/failure (src/unnamed/part_002). -/

inductive Failure where
  | badRequest (msg : String)
  | unauthorized (msg : String)
  | forbidden (msg : String)
  | notFound (msg : String)
  | conflict (msg : String)
  | internal (msg : String)
deriving DecidableEq, Repr

/-! Time parsing, from pkg/helper (Go layouts "15:04" and "2006-01-02"). -/

/-- Numeric value of a decimal digit character, none otherwise. -/
def digitVal (c : Char) : Option Nat :=
  if c.isDigit then some (c.toNat - 48) else none

/-- Parse a list of decimal digit characters into a number. -/
def parseDigitsAux : List Char → Nat → Option Nat
  | [], acc => some acc
  | c :: cs, acc =>
    match digitVal c with
    | some v => parseDigitsAux cs (acc * 10 + v)
    | none => none

/-- Parse a field of exactly len digits (Go zero-padded layout fields). -/
def parseFixed (len : Nat) (cs : List Char) : Option Nat :=
  if cs.length == len then parseDigitsAux cs 0 else none

/-- Parse a field of one or two digits (Go layout "15" hour field). -/
def parseOneOrTwo (cs : List Char) : Option Nat :=
  if cs.length == 1 || cs.length == 2 then parseDigitsAux cs 0 else none

/-- Split a character list at every occurrence of sep. -/
def splitOnChar (sep : Char) : List Char → List (List Char)
  | [] => [[]]
  | c :: cs =>
    let rest := splitOnChar sep cs
    if c == sep then [] :: rest
    else
      match rest with
      | r :: rs => (c :: r) :: rs
      | [] => [[c]]

/-- time.Parse with layout "15:04" (helper.PgTimeFromString /
helper.TimeFromString / helper.IsBookingTimeValid): hour of one or two
digits in 0..23, colon, two-digit minute in 0..59.  Returns none exactly
when Go's parser returns an error. -/
def parseTimeHM (s : String) : Option (Nat × Nat) :=
  match splitOnChar ':' s.data with
  | [h, m] =>
    match parseOneOrTwo h, parseFixed 2 m with
    | some hv, some mv => if hv ≤ 23 && mv ≤ 59 then some (hv, mv) else none
    | _, _ => none
  | _ => none

/-- Leap year rule used by Go's time package. -/
def isLeapYear (y : Nat) : Bool :=
  (y % 4 == 0 && y % 100 != 0) || y % 400 == 0

/-- Number of days of month m in year y. -/
def daysInMonth (y m : Nat) : Nat :=
  if m == 2 then (if isLeapYear y then 29 else 28)
  else if m == 4 || m == 6 || m == 9 || m == 11 then 30
  else 31

/-- time.Parse with layout "2006-01-02": four-digit year, two-digit month
1..12, two-digit day valid for the month.  Returns none exactly when Go's
parser returns an error. -/
def parseDate (s : String) : Option (Nat × Nat × Nat) :=
  match splitOnChar '-' s.data with
  | [y, m, d] =>
    match parseFixed 4 y, parseFixed 2 m, parseFixed 2 d with
    | some yv, some mv, some dv =>
      if 1 ≤ mv && mv ≤ 12 && 1 ≤ dv && dv ≤ daysInMonth yv mv then
        some (yv, mv, dv)
      else none
    | _, _, _ => none
  | _ => none

/-- Strictly monotone encoding of the wall-clock instant
(year, month, day, hour, minute) in the application timezone; calendar
ordering is lexicographic on these components, which the encoding
preserves, and within one day the unit is minutes. -/
def bookingInstant (y m d hh mm : Nat) : Nat :=
  (((y * 12 + (m - 1)) * 31 + (d - 1)) * 1440) + hh * 60 + mm

/-- helper.IsBookingTimeValid (src/pkg/helper/helper.go lines 55-77):
parse the date, parse the start time, build the combined instant in the
application timezone and compare it strictly against the current instant
with time.Time.After.  none models a parse error. -/
def isBookingTimeValid (bookingDate startTimeStr : String) (now : Nat) :
    Option Bool :=
  match parseDate bookingDate with
  | none => none
  | some (y, m, d) =>
    match parseTimeHM startTimeStr with
    | none => none
    | some (hh, mm) => some (decide (now < bookingInstant y m d hh mm))

/-- Microseconds-since-midnight stored by helper.PgTimeFromString and
helper.PgTimeFromTime: (hour·3600 + minute·60)·1000000. -/
def pgTimeMicros (hh mm : Nat) : Nat :=
  (hh * 3600 + mm * 60) * 1000000

/-- helper.CalculateEndTime followed by helper.PgTimeFromTime: adding
durationHours hours to a time.Time and reading back Hour()/Minute() keeps
the minute and advances the hour modulo 24 (time.Time day wrap-around). -/
def endTimeMicros (hh mm : Nat) (durationHours : Int) : Nat :=
  pgTimeMicros ((((hh : Int) + durationHours) % 24).toNat) mm

/-- helper.CalculateTotalPrice (src/pkg/helper/calculate.go lines 30-36). -/
def calculateTotalPrice (pricePerHour durationHours : Int) : Int :=
  if pricePerHour ≤ 0 ∨ durationHours ≤ 0 then 0
  else pricePerHour * durationHours

/-! Repository layer, from the bookings SQL queries (src/unnamed/part_026)
and payments queries (src/database/postgres/domains/payments/queries.sql). -/

/-- Statuses counted by the CountOverlaps query. -/
def activeStatuses : List String :=
  [BookingStatusPending, BookingStatusConfirmed, BookingStatusPaid]

/-- Postgres (s1, e1) OVERLAPS (s2, e2) for TIME operands: each pair is
normalized so its smaller endpoint is the start, then the intervals overlap
when each starts before the other ends, or when they start together. -/
def sqlOverlaps (s1 e1 s2 e2 : Nat) : Bool :=
  (decide (min s1 e1 < max s2 e2) && decide (min s2 e2 < max s1 e1)) ||
    (min s1 e1 == min s2 e2)

/-- Row predicate of the CountOverlaps query (part_026 lines 9-15). -/
def isOverlapCandidate (fieldId : Nat) (bookingDate : String) (s e : Nat)
    (b : Booking) : Bool :=
  b.fieldId == fieldId && b.bookingDate == bookingDate &&
    activeStatuses.contains b.status &&
    sqlOverlaps b.startTime b.endTime s e && b.deletedAt.isNone

/-- CountOverlaps query (part_026 lines 9-15). -/
def countOverlaps (db : List Booking) (fieldId : Nat) (bookingDate : String)
    (s e : Nat) : Nat :=
  (db.filter (isOverlapCandidate fieldId bookingDate s e)).length

/-- CancelBooking query (part_026 lines 17-24): conditional update guarded
by id, user_id and deleted_at IS NULL; declared :exec, so the discarded
RETURNING id and the affected-row count produce no error. -/
def cancelBooking (db : List Booking) (id userId : Nat) (canceledBy : String)
    (now : Nat) : List Booking :=
  db.map fun b =>
    if b.id == id && b.userId == userId && b.deletedAt.isNone then
      { b with status := BookingStatusCanceled, canceledAt := some now,
               canceledBy := some canceledBy, updatedAt := now }
    else b

/-- Row-level effect of the ExpireOldBookings query (part_026 lines 26-33). -/
def expireOne (now : Nat) (b : Booking) : Booking :=
  if b.status == BookingStatusPending && b.expiresAt < now &&
      b.deletedAt.isNone then
    { b with status := BookingStatusExpired, updatedAt := now }
  else b

/-- ExpireOldBookings query (part_026 lines 26-33), the single conditional
UPDATE run by SchedulerService.ExpireOldBookings. -/
def expireOldBookings (db : List Booking) (now : Nat) : List Booking :=
  db.map (expireOne now)

/-- GetBookedTimeSlots query (part_026 lines 49-55): slots of bookings on
the field and date whose status is PENDING or CONFIRMED; the query has no
deleted_at filter and no PAID case.  The ORDER BY start_time of the query
only permutes the result and is elided. -/
def getBookedTimeSlots (db : List Booking) (fieldId : Nat)
    (bookingDate : String) : List (Nat × Nat) :=
  (db.filter fun b =>
      b.fieldId == fieldId && b.bookingDate == bookingDate &&
        (b.status == BookingStatusPending ||
         b.status == BookingStatusConfirmed)).map
    fun b => (b.startTime, b.endTime)

/-- UpdateBookingStatus query (part_026 lines 57-61): sets the given status
on the row with the given id unless soft-deleted; no status guard. -/
def updateBookingStatus (db : List Booking) (id : Nat) (status : String)
    (now : Nat) : List Booking :=
  db.map fun b =>
    if b.id == id && b.deletedAt.isNone then
      { b with status := status, updatedAt := now }
    else b

/-- UpdatePaymentStatusByBookingID query (payments/queries.sql lines 30-36). -/
def updatePaymentStatusByBookingId (ps : List Payment) (bookingId : Nat)
    (status method : String) (now : Nat) : List Payment :=
  ps.map fun p =>
    if p.bookingId == bookingId then
      { p with paymentStatus := status, paymentMethod := method,
               paidAt := some now, updatedAt := now }
    else p

/-! Service layer. -/

/-- CreateBookingRequest DTO (src/internal/domains/bookings/dto/request.go). -/
structure CreateBookingRequest where
  fieldId : Nat
  date : String
  startTime : String
  duration : Int
  cash : Bool
deriving DecidableEq, Repr

/-- CreatePaymentInvoiceResponse DTO returned by CreateBooking. -/
structure CreatePaymentInvoiceResponse where
  id : String
  orderId : Nat
  amount : Int
  status : String
deriving DecidableEq, Repr

/-- Grace period of the bookings.expires_at column default,
now() + INTERVAL 30 minutes (src/unnamed/part_025 line 10). -/
def gracePeriodMinutes : Nat := 30

/-- The row inserted by CreateBooking after a successful overlap check
(src/unnamed/part_016 lines 137-159): status PAID for cash and PENDING
otherwise, times from the parsed start and the computed end, total price
from the field price and duration, expires_at from the schema default. -/
def newBookingRow (req : CreateBookingRequest) (userId now newId : Nat)
    (price : Int) (hh mm : Nat) : Booking :=
  { id := newId, userId := userId, fieldId := req.fieldId,
    bookingDate := req.date, startTime := pgTimeMicros hh mm,
    endTime := endTimeMicros hh mm req.duration,
    totalPrice := calculateTotalPrice price req.duration,
    status := if req.cash then BookingStatusPaid else BookingStatusPending,
    expiresAt := now + gracePeriodMinutes, canceledAt := none,
    canceledBy := none, updatedAt := now, deletedAt := none }

/-- bookingService.CreateBooking (src/unnamed/part_016 lines 65-223).
State is the bookings table; fieldPrices models the fields table read by
GetFieldById inside the transaction; newId the id generated by the insert;
paymentId the id produced by the cash payment insert; invoiceResult the
opaque outcome of the external gateway CreateInvoice call.  The role check
for cash settlement runs after the transaction has committed, exactly as in
the source (lines 161-173). -/
def createBooking (db : List Booking) (fieldPrices : List (Nat × Int))
    (req : CreateBookingRequest) (userId : Nat) (userRole : String)
    (now : Nat) (newId : Nat) (paymentId : String)
    (invoiceResult : Except Failure CreatePaymentInvoiceResponse) :
    Except Failure CreatePaymentInvoiceResponse × List Booking :=
  match isBookingTimeValid req.date req.startTime now with
  | none => (.error (.badRequest "invalid booking time format"), db)
  | some false => (.error (.badRequest "booking time cannot be in the past"), db)
  | some true =>
    match parseTimeHM req.startTime with
    | none => (.error (.badRequest "invalid start time format"), db)
    | some (hh, mm) =>
      if 0 < countOverlaps db req.fieldId req.date (pgTimeMicros hh mm)
          (endTimeMicros hh mm req.duration) then
        (.error (.conflict "there are already bookings for this field at this time"), db)
      else
        match (fieldPrices.find? fun p => p.1 == req.fieldId).map Prod.snd with
        | none => (.error (.notFound "field not found"), db)
        | some price =>
          let db2 := db ++ [newBookingRow req userId now newId price hh mm]
          if req.cash then
            if userRole != UserRoleAdmin && userRole != UserRoleStaff then
              (.error (.forbidden "only staff and admin can create cash payments"), db2)
            else
              (.ok { id := paymentId, orderId := newId,
                     amount := calculateTotalPrice price req.duration,
                     status := PaymentStatusPaid }, db2)
          else
            match invoiceResult with
            | .error e => (.error e, db2)
            | .ok r => (.ok r, db2)

/-- bookingService.CancelUserBooking (src/unnamed/part_016 lines 516-545):
one CancelBooking query; only a query failure (not modelled) yields an
error, so a zero-row match still returns success. -/
def cancelUserBooking (db : List Booking) (bookingId userId : Nat)
    (now : Nat) : Except Failure Unit × List Booking :=
  (.ok (), cancelBooking db bookingId userId BookingCanceledByUser now)

/-- CallbackPaymentInvoice DTO of the payment gateway callback. -/
structure CallbackPaymentInvoice where
  externalId : Nat
  status : String
  paymentMethod : Option String
deriving DecidableEq, Repr

/-- paymentService.Callbacks
(src/internal/domains/payments/service/service.go lines 156-238): verify
the shared callback token, update the payment rows for the booking, then
update the booking status — CONFIRMED when the callback status is PAID,
otherwise the never-assigned Go zero value, the empty string.  Both
updates are :exec queries, so their zero-row branches report no error. -/
def callbacks (bs : List Booking) (ps : List Payment)
    (req : CallbackPaymentInvoice) (cfgToken token : String) (now : Nat) :
    Except Failure Unit × List Booking × List Payment :=
  if cfgToken != token then
    (.error (.unauthorized "invalid callback token"), bs, ps)
  else
    let paymentStatus := if req.status == "" then PaymentStatusPending else req.status
    let method := req.paymentMethod.getD PaymentUnknownMethod
    let ps2 := updatePaymentStatusByBookingId ps req.externalId paymentStatus method now
    let bookingStatus := if req.status == PaymentStatusPaid then BookingStatusConfirmed else ""
    let bs2 := updateBookingStatus bs req.externalId bookingStatus now
    (.ok (), bs2, ps2)

/-! Overlap invariant vocabulary. -/

/-- Half-open interval overlap of the data-model invariant. -/
def overlapsHalfOpen (s1 e1 s2 e2 : Nat) : Prop :=
  s1 < e2 ∧ s2 < e1

/-- Active row on a given field and date, as counted by the invariant:
status in the active set and not soft-deleted. -/
def isActiveOn (fieldId : Nat) (bookingDate : String) (b : Booking) : Bool :=
  b.fieldId == fieldId && b.bookingDate == bookingDate &&
    activeStatuses.contains b.status && b.deletedAt.isNone

/-- The active bookings of a field and date. -/
def activeOn (db : List Booking) (fieldId : Nat) (bookingDate : String) :
    List Booking :=
  db.filter (isActiveOn fieldId bookingDate)

/-- Core invariant: on every field and date, the active bookings have
pairwise non-overlapping half-open intervals. -/
def NoOverlapInvariant (db : List Booking) : Prop :=
  ∀ fieldId bookingDate,
    (activeOn db fieldId bookingDate).Pairwise fun b1 b2 =>
      ¬ overlapsHalfOpen b1.startTime b1.endTime b2.startTime b2.endTime

/-! Concrete fixtures for boundary scenarios and witnesses. -/

/-- One field, id 1, price 100000 per hour. -/
def fieldPricesW : List (Nat × Int) := [(1, 100000)]

/-- An invoice response as produced by the external gateway. -/
def invW : CreatePaymentInvoiceResponse :=
  { id := "inv-1", orderId := 2, amount := 100000, status := "PENDING" }

/-- Active PENDING booking 10:00-11:00 on field 1. -/
def bkTen : Booking :=
  { id := 1, userId := 7, fieldId := 1, bookingDate := "2099-01-01",
    startTime := pgTimeMicros 10 0, endTime := pgTimeMicros 11 0,
    totalPrice := 100000, status := BookingStatusPending, expiresAt := 30,
    canceledAt := none, canceledBy := none, updatedAt := 0,
    deletedAt := none }

/-- Request touching bkTen at 11:00. -/
def reqEleven : CreateBookingRequest :=
  { fieldId := 1, date := "2099-01-01", startTime := "11:00", duration := 1,
    cash := false }

/-- Request overlapping bkTen at 10:30. -/
def reqTenThirty : CreateBookingRequest :=
  { fieldId := 1, date := "2099-01-01", startTime := "10:30", duration := 1,
    cash := false }

/-- Cash request at 10:00. -/
def reqCashTen : CreateBookingRequest :=
  { fieldId := 1, date := "2099-01-01", startTime := "10:00", duration := 1,
    cash := true }

/-- Request crossing midnight: start 23:00, duration two hours. -/
def reqTwentyThree : CreateBookingRequest :=
  { fieldId := 1, date := "2099-01-01", startTime := "23:00", duration := 2,
    cash := false }

/-- PENDING booking id 3 awaiting a gateway callback. -/
def pendBk : Booking :=
  { id := 3, userId := 7, fieldId := 1, bookingDate := "2099-01-01",
    startTime := pgTimeMicros 10 0, endTime := pgTimeMicros 11 0,
    totalPrice := 100000, status := BookingStatusPending, expiresAt := 30,
    canceledAt := none, canceledBy := none, updatedAt := 0,
    deletedAt := none }

/-- Payment row of pendBk. -/
def payBk3 : Payment :=
  { bookingId := 3, paymentMethod := "BANK_TRANSFER",
    paymentStatus := PaymentStatusPending, transactionId := "tx-3",
    paidAt := none, updatedAt := 0 }

/-- Callback for booking 3 whose payment status is EXPIRED (not paid). -/
def cbExpired : CallbackPaymentInvoice :=
  { externalId := 3, status := "EXPIRED", paymentMethod := some "BANK_TRANSFER" }

/-- EXPIRED booking id 4 owned by user 7. -/
def expiredBk : Booking :=
  { id := 4, userId := 7, fieldId := 1, bookingDate := "2099-01-01",
    startTime := pgTimeMicros 10 0, endTime := pgTimeMicros 11 0,
    totalPrice := 100000, status := BookingStatusExpired, expiresAt := 30,
    canceledAt := none, canceledBy := none, updatedAt := 0,
    deletedAt := none }

/-- PENDING booking id 1 owned by user 7, target of cancellation tests. -/
def bkOwned7 : Booking :=
  { id := 1, userId := 7, fieldId := 1, bookingDate := "2099-01-01",
    startTime := pgTimeMicros 10 0, endTime := pgTimeMicros 11 0,
    totalPrice := 100000, status := BookingStatusPending, expiresAt := 30,
    canceledAt := none, canceledBy := none, updatedAt := 0,
    deletedAt := none }

/-- PAID booking 10:00-11:00 on field 1 (active for the overlap check but
absent from GetBookedTimeSlots). -/
def paidBk : Booking :=
  { id := 5, userId := 7, fieldId := 1, bookingDate := "2099-01-01",
    startTime := pgTimeMicros 10 0, endTime := pgTimeMicros 11 0,
    totalPrice := 100000, status := BookingStatusPaid, expiresAt := 30,
    canceledAt := none, canceledBy := none, updatedAt := 0,
    deletedAt := none }

/-- Overdue PENDING booking id 6 (expires_at 40, before now = 100). -/
def pendOverdue : Booking :=
  { id := 6, userId := 7, fieldId := 1, bookingDate := "2099-01-01",
    startTime := pgTimeMicros 10 0, endTime := pgTimeMicros 11 0,
    totalPrice := 100000, status := BookingStatusPending, expiresAt := 40,
    canceledAt := none, canceledBy := none, updatedAt := 0,
    deletedAt := none }

/-- CONFIRMED booking id 8 that a sweep must never alter. -/
def confirmedBk : Booking :=
  { id := 8, userId := 7, fieldId := 1, bookingDate := "2099-01-01",
    startTime := pgTimeMicros 12 0, endTime := pgTimeMicros 13 0,
    totalPrice := 100000, status := BookingStatusConfirmed, expiresAt := 40,
    canceledAt := none, canceledBy := none, updatedAt := 0,
    deletedAt := none }

/-- Paid callback for booking 4. -/
def cbPaid4 : CallbackPaymentInvoice :=
  { externalId := 4, status := PaymentStatusPaid, paymentMethod := none }

/-- Request with a malformed month in its date. -/
def reqBadDate : CreateBookingRequest :=
  { fieldId := 1, date := "2024-13-01", startTime := "10:00", duration := 1,
    cash := false }

/-- Request whose start instant is used as the current instant itself. -/
def reqAtNow : CreateBookingRequest :=
  { fieldId := 1, date := "2024-01-02", startTime := "10:00", duration := 1,
    cash := false }

/-! Theorems. -/

/-- C2: interval overlap is the half-open relation: against an active
10:00-11:00 booking on the same field and date, the touching request
11:00-12:00 is accepted (the invoice result is returned and the PENDING
row is inserted), while the request 10:30-11:30 is rejected with Conflict
and inserts nothing. -/
theorem createBooking_touching_accepted_overlap_conflict :
    (createBooking [bkTen] fieldPricesW reqEleven 7 "1" 0 2 "pay-1"
        (Except.ok invW)).1 = Except.ok invW ∧
    (createBooking [bkTen] fieldPricesW reqEleven 7 "1" 0 2 "pay-1"
        (Except.ok invW)).2 = [bkTen, newBookingRow reqEleven 7 0 2 100000 11 0] ∧
    createBooking [bkTen] fieldPricesW reqTenThirty 7 "1" 0 2 "pay-1"
        (Except.ok invW) =
      (Except.error (Failure.conflict
        "there are already bookings for this field at this time"), [bkTen]) :=
  ⟨rfl, rfl, rfl⟩

/-- C3 (code bug): a cash request by a plain user (role "1") is answered
with Forbidden, but only after the transaction has committed: the booking
row was inserted with status PAID by the failed call, so the store is not
left unchanged. -/
theorem createBooking_cash_nonstaff_persists_paid_row :
    (createBooking [] fieldPricesW reqCashTen 7 "1" 0 5 "pay-1"
        (Except.ok invW)).1 =
      Except.error (Failure.forbidden
        "only staff and admin can create cash payments") ∧
    (createBooking [] fieldPricesW reqCashTen 7 "1" 0 5 "pay-1"
        (Except.ok invW)).2 = [newBookingRow reqCashTen 7 0 5 100000 10 0] ∧
    (newBookingRow reqCashTen 7 0 5 100000 10 0).status = BookingStatusPaid :=
  ⟨rfl, rfl, rfl⟩

/-- C4 (code bug): a token-valid callback whose payment status is not PAID
commits a booking status update to the empty string — the Go status
variable keeps its zero value — which is none of the five enumeration
values, instead of leaving the booking in a pending/failed state. -/
theorem callbacks_nonpaid_sets_empty_status :
    (callbacks [pendBk] [payBk3] cbExpired "tok" "tok" 99).1 = Except.ok () ∧
    (callbacks [pendBk] [payBk3] cbExpired "tok" "tok" 99).2.1 =
      [{ pendBk with status := "", updatedAt := 99 }] ∧
    bookingStatusEnum.contains "" = false :=
  ⟨rfl, rfl, rfl⟩

/-- C5 counterexample: CancelUserBooking by the owner changes an EXPIRED
booking's status to CANCELLED — the CancelBooking update has no status
guard — so EXPIRED is not terminal under the exposed operations. -/
theorem cancelUserBooking_changes_expired_status :
    expiredBk.status = BookingStatusExpired ∧
    (cancelUserBooking [expiredBk] 4 7 50).2 =
      [{ expiredBk with
          status := BookingStatusCanceled,
          canceledAt := some 50,
          canceledBy := some BookingCanceledByUser,
          updatedAt := 50 }] ∧
    (BookingStatusCanceled == BookingStatusExpired) = false :=
  ⟨rfl, rfl, rfl⟩

/-- C7 (code bug): cancelling booking 1 (owned by user 7) on behalf of
user 8 leaves every row unchanged but returns success: the CancelBooking
:exec query reports no error when zero rows match, so the required
not-found/unauthorized failure never surfaces. -/
theorem cancelUserBooking_wrong_owner_silent_success :
    (cancelUserBooking [bkOwned7] 1 8 50).1 = Except.ok () ∧
    (cancelUserBooking [bkOwned7] 1 8 50).2 = [bkOwned7] :=
  ⟨rfl, rfl⟩

/-- C8 counterexample: with a single PAID booking 10:00-11:00 on the field
and date, the request 10:30-11:30 is rejected with Conflict although
GetBookedTimeSlots returns no slot at all, so rejection is not equivalent
to overlapping a returned slot. -/
theorem createBooking_conflict_without_booked_slot :
    (createBooking [paidBk] fieldPricesW reqTenThirty 7 "1" 0 2 "pay-1"
        (Except.ok invW)).1 =
      Except.error (Failure.conflict
        "there are already bookings for this field at this time") ∧
    getBookedTimeSlots [paidBk] 1 "2099-01-01" = [] :=
  ⟨rfl, rfl⟩

/-- Helper: a half-open overlap implies the Postgres OVERLAPS test. -/
theorem overlapsHalfOpen_imp_sqlOverlaps {s1 e1 s2 e2 : Nat}
    (h : overlapsHalfOpen s1 e1 s2 e2) : sqlOverlaps s1 e1 s2 e2 = true := by
  rcases h with ⟨h1, h2⟩
  simp only [sqlOverlaps, Bool.or_eq_true, Bool.and_eq_true, decide_eq_true_eq,
    beq_iff_eq]
  exact Or.inl
    ⟨lt_of_le_of_lt (min_le_left _ _) (lt_of_lt_of_le h1 (le_max_right _ _)),
     lt_of_le_of_lt (min_le_left _ _) (lt_of_lt_of_le h2 (le_max_right _ _))⟩

/-- Helper: unfolding of the active-row predicate. -/
theorem isActiveOn_iff {f : Nat} {d : String} {b : Booking} :
    isActiveOn f d b = true ↔
      b.fieldId = f ∧ b.bookingDate = d ∧
        activeStatuses.contains b.status = true ∧ b.deletedAt = none := by
  simp [isActiveOn, Bool.and_eq_true, beq_iff_eq, Option.isNone_iff_eq_none,
    and_assoc]

/-- Helper: unfolding of the CountOverlaps row predicate. -/
theorem isOverlapCandidate_iff {f : Nat} {d : String} {s e : Nat} {b : Booking} :
    isOverlapCandidate f d s e b = true ↔
      b.fieldId = f ∧ b.bookingDate = d ∧
        activeStatuses.contains b.status = true ∧
        sqlOverlaps b.startTime b.endTime s e = true ∧ b.deletedAt = none := by
  simp [isOverlapCandidate, Bool.and_eq_true, beq_iff_eq,
    Option.isNone_iff_eq_none, and_assoc]

/-- Helper: a zero overlap count means no row satisfies the predicate. -/
theorem countOverlaps_eq_zero_iff {db : List Booking} {f : Nat} {d : String}
    {s e : Nat} :
    countOverlaps db f d s e = 0 ↔
      ∀ b ∈ db, ¬ isOverlapCandidate f d s e b = true := by
  simp [countOverlaps, List.length_eq_zero, List.filter_eq_nil_iff]

/-- Helper: a satisfying member makes the overlap count positive. -/
theorem countOverlaps_pos_of_mem {db : List Booking} {f : Nat} {d : String}
    {s e : Nat} {b : Booking} (hb : b ∈ db)
    (hc : isOverlapCandidate f d s e b = true) : 0 < countOverlaps db f d s e := by
  unfold countOverlaps
  exact List.length_pos.mpr (List.ne_nil_of_mem (List.mem_filter.mpr ⟨hb, hc⟩))

/-- Helper: the invariant holds for a one-row table. -/
theorem noOverlapInvariant_singleton (b : Booking) : NoOverlapInvariant [b] := by
  intro f d
  unfold activeOn
  cases hb : isActiveOn f d b <;>
    simp [List.filter_singleton, hb, List.pairwise_singleton]

/-- Helper: appending a row that passes the overlap check preserves the
invariant. -/
theorem noOverlapInvariant_insert {db : List Booking} {row : Booking}
    (hinv : NoOverlapInvariant db)
    (hcount : countOverlaps db row.fieldId row.bookingDate row.startTime
      row.endTime = 0) :
    NoOverlapInvariant (db ++ [row]) := by
  intro f d
  have hz := countOverlaps_eq_zero_iff.mp hcount
  show ((db ++ [row]).filter (isActiveOn f d)).Pairwise _
  rw [List.filter_append, List.pairwise_append]
  by_cases hrow : isActiveOn f d row = true
  · refine ⟨hinv f d, by simp [List.filter_singleton, hrow, List.pairwise_singleton], ?_⟩
    intro a ha c hc
    simp only [List.filter_singleton, hrow, cond_true, List.mem_singleton] at hc
    rw [hc]
    have hamem : a ∈ db := (List.mem_filter.mp ha).1
    have haact : isActiveOn f d a = true := (List.mem_filter.mp ha).2
    rcases isActiveOn_iff.mp haact with ⟨haf, had, hast, hadel⟩
    rcases isActiveOn_iff.mp hrow with ⟨hrf, hrd, _, _⟩
    intro hov
    have hsql := overlapsHalfOpen_imp_sqlOverlaps hov
    have hcand : isOverlapCandidate row.fieldId row.bookingDate row.startTime
        row.endTime a = true :=
      isOverlapCandidate_iff.mpr
        ⟨haf.trans hrf.symm, had.trans hrd.symm, hast, hsql, hadel⟩
    exact hz a hamem hcand
  · refine ⟨hinv f d, by simp [List.filter_singleton, hrow], ?_⟩
    intro a ha c hc
    simp [List.filter_singleton, hrow] at hc

/-- Helper: CreateBooking either leaves the table unchanged or, when the
request is time-valid and the overlap count is zero, appends exactly the
new row. -/
theorem createBooking_state_cases (db : List Booking)
    (fps : List (Nat × Int)) (req : CreateBookingRequest) (uid : Nat)
    (role : String) (now nid : Nat) (pid : String)
    (inv : Except Failure CreatePaymentInvoiceResponse) :
    (createBooking db fps req uid role now nid pid inv).2 = db ∨
    ∃ hh mm price, parseTimeHM req.startTime = some (hh, mm) ∧
      isBookingTimeValid req.date req.startTime now = some true ∧
      countOverlaps db req.fieldId req.date (pgTimeMicros hh mm)
        (endTimeMicros hh mm req.duration) = 0 ∧
      (createBooking db fps req uid role now nid pid inv).2 =
        db ++ [newBookingRow req uid now nid price hh mm] := by
  rcases hv : isBookingTimeValid req.date req.startTime now with _ | b
  · exact Or.inl (by simp [createBooking, hv])
  · rcases b
    · exact Or.inl (by simp [createBooking, hv])
    · rcases hp : parseTimeHM req.startTime with _ | ⟨hh, mm⟩
      · exact Or.inl (by simp [createBooking, hv, hp])
      · by_cases hov : 0 < countOverlaps db req.fieldId req.date
            (pgTimeMicros hh mm) (endTimeMicros hh mm req.duration)
        · exact Or.inl (by simp [createBooking, hv, hp, hov])
        · rcases hf : (fps.find? fun p => p.1 == req.fieldId).map Prod.snd
            with _ | price
          · exact Or.inl (by simp [createBooking, hv, hp, hov, hf])
          · refine Or.inr ⟨hh, mm, price, rfl, rfl, Nat.eq_zero_of_not_pos hov, ?_⟩
            rcases hcash : req.cash
            · rcases inv with e | r <;> simp [createBooking, hv, hp, hov, hf, hcash]
            · by_cases hrole : (role != UserRoleAdmin && role != UserRoleStaff) = true <;>
                simp [createBooking, hv, hp, hov, hf, hcash, hrole]

/-- C9 counterexample: the accepted request starting 23:00 with duration
two hours persists end_time 01:00, which is smaller than start_time, so
the stored end_time is neither start plus duration nor greater than
start_time for midnight-crossing requests. -/
theorem createBooking_midnight_end_before_start :
    (createBooking [] fieldPricesW reqTwentyThree 7 "1" 0 6 "pay-1"
        (Except.ok invW)).2 = [newBookingRow reqTwentyThree 7 0 6 100000 23 0] ∧
    (newBookingRow reqTwentyThree 7 0 6 100000 23 0).endTime = pgTimeMicros 1 0 ∧
    (newBookingRow reqTwentyThree 7 0 6 100000 23 0).endTime <
      (newBookingRow reqTwentyThree 7 0 6 100000 23 0).startTime :=
  ⟨rfl, rfl, by decide⟩

/-- C1: for every field and date, the active (PENDING/CONFIRMED/PAID,
non-soft-deleted) bookings have pairwise non-overlapping half-open
intervals, and every CreateBooking preserves this invariant; moreover a
time-valid creation whose interval overlaps an existing active booking on
the requested field and date is rejected with Conflict and leaves the
table unchanged. -/
theorem createBooking_preserves_noOverlapInvariant (db : List Booking)
    (fps : List (Nat × Int)) (req : CreateBookingRequest) (uid : Nat)
    (role : String) (now nid : Nat) (pid : String)
    (inv : Except Failure CreatePaymentInvoiceResponse)
    (hinv : NoOverlapInvariant db) :
    NoOverlapInvariant (createBooking db fps req uid role now nid pid inv).2 ∧
    (∀ hh mm, parseTimeHM req.startTime = some (hh, mm) →
      isBookingTimeValid req.date req.startTime now = some true →
      (∃ b ∈ db, isActiveOn req.fieldId req.date b = true ∧
        overlapsHalfOpen b.startTime b.endTime (pgTimeMicros hh mm)
          (endTimeMicros hh mm req.duration)) →
      createBooking db fps req uid role now nid pid inv =
        (Except.error (Failure.conflict
          "there are already bookings for this field at this time"), db)) := by
  constructor
  · rcases createBooking_state_cases db fps req uid role now nid pid inv with
      h | ⟨hh, mm, price, _, _, hc, h⟩
    · rw [h]; exact hinv
    · rw [h]; exact noOverlapInvariant_insert hinv hc
  · intro hh mm hparse hvalid hex
    rcases hex with ⟨b, hbmem, hbact, hbov⟩
    have hcand : isOverlapCandidate req.fieldId req.date (pgTimeMicros hh mm)
        (endTimeMicros hh mm req.duration) b = true := by
      rcases isActiveOn_iff.mp hbact with ⟨h1, h2, h3, h4⟩
      exact isOverlapCandidate_iff.mpr
        ⟨h1, h2, h3, overlapsHalfOpen_imp_sqlOverlaps hbov, h4⟩
    have hpos := countOverlaps_pos_of_mem hbmem hcand
    simp [createBooking, hvalid, hparse, hpos]

/-- C1 witness: with the single active booking 10:00-11:00, the invariant
holds after the 10:30-11:30 creation, which is itself rejected with
Conflict leaving the table unchanged. -/
theorem createBooking_preserves_noOverlapInvariant_witness :
    NoOverlapInvariant (createBooking [bkTen] fieldPricesW reqTenThirty 7 "1"
      0 2 "pay-1" (Except.ok invW)).2 ∧
    createBooking [bkTen] fieldPricesW reqTenThirty 7 "1" 0 2 "pay-1"
        (Except.ok invW) =
      (Except.error (Failure.conflict
        "there are already bookings for this field at this time"), [bkTen]) := by
  have h := createBooking_preserves_noOverlapInvariant [bkTen] fieldPricesW
    reqTenThirty 7 "1" 0 2 "pay-1" (Except.ok invW)
    (noOverlapInvariant_singleton bkTen)
  exact ⟨h.1, h.2 10 30 rfl rfl
    ⟨bkTen, List.mem_singleton_self _, by decide, by decide, by decide⟩⟩

/-- C5 amended: only the expiration sweep honours terminality — it never
changes a CANCELLED or EXPIRED row — while CancelUserBooking moves any
matching non-deleted booking to CANCELLED regardless of its status
(including EXPIRED), and a PAID payment callback moves the referenced
non-deleted booking to CONFIRMED regardless of its status (including
CANCELLED and EXPIRED). -/
theorem terminalStatuses_not_enforced_outside_sweeper :
    (∀ (now : Nat) (b : Booking),
        b.status = BookingStatusCanceled ∨ b.status = BookingStatusExpired →
        expireOne now b = b) ∧
    (∀ (db : List Booking) (id uid now : Nat) (b : Booking), b ∈ db →
        b.id = id → b.userId = uid → b.deletedAt = none →
        { b with
            status := BookingStatusCanceled,
            canceledAt := some now,
            canceledBy := some BookingCanceledByUser,
            updatedAt := now } ∈ (cancelUserBooking db id uid now).2) ∧
    (∀ (bs : List Booking) (ps : List Payment) (token : String)
        (id now : Nat) (m : Option String) (b : Booking), b ∈ bs →
        b.id = id → b.deletedAt = none →
        { b with status := BookingStatusConfirmed, updatedAt := now } ∈
          (callbacks bs ps
            { externalId := id, status := PaymentStatusPaid,
              paymentMethod := m } token token now).2.1) := by
  refine ⟨?_, ?_, ?_⟩
  · intro now b h
    rcases h with h | h <;>
      simp [expireOne, h, BookingStatusCanceled, BookingStatusExpired,
        BookingStatusPending]
  · intro db id uid now b hb hid huid hdel
    have hmem := List.mem_map_of_mem (fun b : Booking =>
      if b.id == id && b.userId == uid && b.deletedAt.isNone then
        { b with
            status := BookingStatusCanceled,
            canceledAt := some now,
            canceledBy := some BookingCanceledByUser,
            updatedAt := now }
      else b) hb
    simpa [cancelUserBooking, cancelBooking, hid, huid, hdel] using hmem
  · intro bs ps token id now m b hb hid hdel
    have hmem := List.mem_map_of_mem (fun b : Booking =>
      if b.id == id && b.deletedAt.isNone then
        { b with status := BookingStatusConfirmed, updatedAt := now }
      else b) hb
    simpa [callbacks, updateBookingStatus, hid, hdel] using hmem

/-- C5 amended witness: the sweep keeps the EXPIRED fixture unchanged, yet
cancelling it as its owner yields a CANCELLED row. -/
theorem terminalStatuses_not_enforced_witness :
    expireOne 100 expiredBk = expiredBk ∧
    ({ expiredBk with
        status := BookingStatusCanceled,
        canceledAt := some 50,
        canceledBy := some BookingCanceledByUser,
        updatedAt := 50 } ∈ (cancelUserBooking [expiredBk] 4 7 50).2) ∧
    ({ expiredBk with status := BookingStatusConfirmed, updatedAt := 60 } ∈
      (callbacks [expiredBk] [] cbPaid4 "tok" "tok" 60).2.1) := by
  have h := terminalStatuses_not_enforced_outside_sweeper
  exact ⟨h.1 100 expiredBk (Or.inr rfl),
    h.2.1 [expiredBk] 4 7 50 expiredBk (List.mem_singleton_self _) rfl rfl rfl,
    h.2.2 [expiredBk] [] "tok" 4 60 none expiredBk
      (List.mem_singleton_self _) rfl rfl⟩

/-- C6: the expiration sweep is idempotent — running it twice at the same
instant equals running it once — and frame-bounded: it acts row-wise,
turning exactly the non-deleted PENDING rows with expires_at before now
into EXPIRED, leaving every other row (in particular every CONFIRMED, PAID
or CANCELLED row) unchanged. -/
theorem expireOldBookings_idempotent_frame (db : List Booking) (now : Nat) :
    expireOldBookings (expireOldBookings db now) now =
      expireOldBookings db now ∧
    expireOldBookings db now = db.map (expireOne now) ∧
    (∀ b : Booking, b.deletedAt = none → b.status = BookingStatusPending →
        b.expiresAt < now →
        expireOne now b =
          { b with status := BookingStatusExpired, updatedAt := now }) ∧
    (∀ b : Booking, ¬ (b.status = BookingStatusPending ∧ b.expiresAt < now ∧
        b.deletedAt = none) → expireOne now b = b) ∧
    (∀ b : Booking, b.status = BookingStatusConfirmed ∨
        b.status = BookingStatusPaid ∨ b.status = BookingStatusCanceled →
        expireOne now b = b) := by
  have hone : ∀ b, expireOne now (expireOne now b) = expireOne now b := by
    intro b
    cases h : b.status == BookingStatusPending && decide (b.expiresAt < now) &&
        b.deletedAt.isNone
    · have hb : expireOne now b = b := by
        unfold expireOne
        rw [h]
        rfl
      rw [hb, hb]
    · have hb : expireOne now b =
          { b with status := BookingStatusExpired, updatedAt := now } := by
        unfold expireOne
        rw [h]
        rfl
      rw [hb]
      rfl
  have hframe : ∀ b : Booking, ¬ (b.status = BookingStatusPending ∧
      b.expiresAt < now ∧ b.deletedAt = none) → expireOne now b = b := by
    intro b hn
    have hcond : (b.status == BookingStatusPending &&
        decide (b.expiresAt < now) && b.deletedAt.isNone) = false := by
      rw [Bool.eq_false_iff]
      intro hc
      simp only [Bool.and_eq_true, beq_iff_eq, decide_eq_true_eq,
        Option.isNone_iff_eq_none] at hc
      exact hn ⟨hc.1.1, hc.1.2, hc.2⟩
    unfold expireOne
    rw [hcond]
    rfl
  refine ⟨?_, rfl, ?_, hframe, ?_⟩
  · unfold expireOldBookings
    rw [List.map_map]
    exact List.map_congr_left fun b _ => hone b
  · intro b h1 h2 h3
    have hcond : (b.status == BookingStatusPending &&
        decide (b.expiresAt < now) && b.deletedAt.isNone) = true := by
      simp [h1, h2, h3]
    unfold expireOne
    rw [hcond]
    rfl
  · intro b h
    apply hframe
    rintro ⟨hp, _, _⟩
    rcases h with h | h | h <;> rw [h] at hp <;> exact absurd hp (by decide)

/-- C6 witness: one sweep at instant 100 expires the overdue PENDING
fixture, a second sweep changes nothing, and the CONFIRMED fixture is
untouched. -/
theorem expireOldBookings_idempotent_witness :
    expireOldBookings (expireOldBookings [pendOverdue, confirmedBk] 100) 100 =
      expireOldBookings [pendOverdue, confirmedBk] 100 ∧
    expireOne 100 pendOverdue =
      { pendOverdue with status := BookingStatusExpired, updatedAt := 100 } ∧
    expireOne 100 confirmedBk = confirmedBk := by
  have h := expireOldBookings_idempotent_frame [pendOverdue, confirmedBk] 100
  exact ⟨h.1, h.2.2.1 pendOverdue rfl rfl (by decide),
    h.2.2.2.2 confirmedBk (Or.inl rfl)⟩

/-- C8 amended: GetBookedTimeSlots lists exactly the PENDING/CONFIRMED
slots of the field and date (without a soft-delete filter), while the
CreateBooking overlap check counts PENDING/CONFIRMED/PAID non-deleted
rows: overlapping the slot of a non-deleted PENDING or CONFIRMED booking
implies the slot is listed and a time-valid creation is rejected with
Conflict; the converse fails for PAID bookings. -/
theorem bookedSlots_conflict_one_direction (db : List Booking)
    (fps : List (Nat × Int)) (req : CreateBookingRequest) (uid : Nat)
    (role : String) (now nid : Nat) (pid : String)
    (inv : Except Failure CreatePaymentInvoiceResponse) (b : Booking)
    (hb : b ∈ db) (hf : b.fieldId = req.fieldId)
    (hd : b.bookingDate = req.date)
    (hst : b.status = BookingStatusPending ∨
      b.status = BookingStatusConfirmed)
    (hdel : b.deletedAt = none) (hh mm : Nat)
    (hparse : parseTimeHM req.startTime = some (hh, mm))
    (hvalid : isBookingTimeValid req.date req.startTime now = some true)
    (hov : sqlOverlaps b.startTime b.endTime (pgTimeMicros hh mm)
      (endTimeMicros hh mm req.duration) = true) :
    (b.startTime, b.endTime) ∈ getBookedTimeSlots db req.fieldId req.date ∧
    (createBooking db fps req uid role now nid pid inv).1 =
      Except.error (Failure.conflict
        "there are already bookings for this field at this time") := by
  constructor
  · unfold getBookedTimeSlots
    refine List.mem_map_of_mem _ (List.mem_filter.mpr ⟨hb, ?_⟩)
    rcases hst with h | h <;> simp [hf, hd, h]
  · have hcand : isOverlapCandidate req.fieldId req.date (pgTimeMicros hh mm)
        (endTimeMicros hh mm req.duration) b = true := by
      refine isOverlapCandidate_iff.mpr ⟨hf, hd, ?_, hov, hdel⟩
      rcases hst with h | h <;> rw [h] <;> decide
    have hpos := countOverlaps_pos_of_mem hb hcand
    simp [createBooking, hvalid, hparse, hpos]

/-- C8 amended witness: the PENDING 10:00-11:00 slot is listed and the
overlapping 10:30-11:30 creation is rejected with Conflict. -/
theorem bookedSlots_conflict_one_direction_witness :
    (bkTen.startTime, bkTen.endTime) ∈
      getBookedTimeSlots [bkTen] reqTenThirty.fieldId reqTenThirty.date ∧
    (createBooking [bkTen] fieldPricesW reqTenThirty 8 "1" 0 9 "pay-2"
        (Except.ok invW)).1 =
      Except.error (Failure.conflict
        "there are already bookings for this field at this time") :=
  bookedSlots_conflict_one_direction [bkTen] fieldPricesW reqTenThirty 8 "1"
    0 9 "pay-2" (Except.ok invW) bkTen (List.mem_singleton_self _) rfl rfl
    (Or.inl rfl) rfl 10 30 rfl rfl (by decide)

/-- C9 amended: every booking persisted by CreateBooking stores the start
as parsed and the end as the start advanced by the duration modulo 24
hours; the stored end exceeds the stored start whenever the duration is at
least one hour and start hour plus duration stays within the day, and a
midnight-crossing request wraps instead. -/
theorem createBooking_endTime_wraps_mod24 :
    (∀ (hh mm : Nat) (d : Int), 1 ≤ d → (hh : Int) + d ≤ 23 →
        pgTimeMicros hh mm < endTimeMicros hh mm d) ∧
    (∀ (db : List Booking) (fps : List (Nat × Int))
        (req : CreateBookingRequest) (uid : Nat) (role : String)
        (now nid : Nat) (pid : String)
        (inv : Except Failure CreatePaymentInvoiceResponse) (b : Booking),
        b ∈ (createBooking db fps req uid role now nid pid inv).2 →
        b ∈ db ∨ ∃ hh mm price, parseTimeHM req.startTime = some (hh, mm) ∧
          b = newBookingRow req uid now nid price hh mm ∧
          b.startTime = pgTimeMicros hh mm ∧
          b.endTime = endTimeMicros hh mm req.duration) := by
  constructor
  · intro hh mm d h1 h2
    unfold endTimeMicros pgTimeMicros
    omega
  · intro db fps req uid role now nid pid inv b hb
    rcases createBooking_state_cases db fps req uid role now nid pid inv with
      h | ⟨hh, mm, price, hp, _, _, h⟩
    · rw [h] at hb; exact Or.inl hb
    · rw [h] at hb
      rcases List.mem_append.mp hb with h1 | h1
      · exact Or.inl h1
      · have hbrow : b = newBookingRow req uid now nid price hh mm := by
          simpa using h1
        exact Or.inr ⟨hh, mm, price, hp, hbrow, by rw [hbrow]; rfl,
          by rw [hbrow]; rfl⟩

/-- C9 amended witness: a one-hour booking at 10:00 ends after it starts,
and the row inserted for the 11:00 request carries exactly the parsed
start and the computed wrapped end. -/
theorem createBooking_endTime_wraps_witness :
    pgTimeMicros 10 0 < endTimeMicros 10 0 1 ∧
    (newBookingRow reqEleven 7 0 2 100000 11 0 ∈ [bkTen] ∨
      ∃ hh mm price, parseTimeHM reqEleven.startTime = some (hh, mm) ∧
        newBookingRow reqEleven 7 0 2 100000 11 0 =
          newBookingRow reqEleven 7 0 2 price hh mm ∧
        (newBookingRow reqEleven 7 0 2 100000 11 0).startTime =
          pgTimeMicros hh mm ∧
        (newBookingRow reqEleven 7 0 2 100000 11 0).endTime =
          endTimeMicros hh mm reqEleven.duration) := by
  have h := createBooking_endTime_wraps_mod24
  exact ⟨h.1 10 0 1 (by decide) (by decide),
    h.2 [bkTen] fieldPricesW reqEleven 7 "1" 0 2 "pay-1" (Except.ok invW)
      (newBookingRow reqEleven 7 0 2 100000 11 0) (by decide)⟩

/-- C10: the time-validity check of CreateBooking is strict — a malformed
date or time string yields BadRequest, a start instant less than or equal
to the current instant (in particular equal) yields BadRequest, and any
non-error outcome implies the parsed start instant lies strictly after
now. -/
theorem createBooking_time_check_strict (db : List Booking)
    (fps : List (Nat × Int)) (req : CreateBookingRequest) (uid : Nat)
    (role : String) (now nid : Nat) (pid : String)
    (inv : Except Failure CreatePaymentInvoiceResponse) :
    (isBookingTimeValid req.date req.startTime now = none →
        createBooking db fps req uid role now nid pid inv =
          (Except.error (Failure.badRequest "invalid booking time format"),
            db)) ∧
    (∀ y mo dd hh mm, parseDate req.date = some (y, mo, dd) →
        parseTimeHM req.startTime = some (hh, mm) →
        bookingInstant y mo dd hh mm ≤ now →
        createBooking db fps req uid role now nid pid inv =
          (Except.error (Failure.badRequest
            "booking time cannot be in the past"), db)) ∧
    (∀ r, (createBooking db fps req uid role now nid pid inv).1 =
          Except.ok r →
        ∃ y mo dd hh mm, parseDate req.date = some (y, mo, dd) ∧
          parseTimeHM req.startTime = some (hh, mm) ∧
          now < bookingInstant y mo dd hh mm) := by
  refine ⟨?_, ?_, ?_⟩
  · intro h
    simp [createBooking, h]
  · intro y mo dd hh mm hd ht hle
    have hv : isBookingTimeValid req.date req.startTime now = some false := by
      simp only [isBookingTimeValid, hd, ht]
      rw [decide_eq_false (Nat.not_lt.mpr hle)]
    simp [createBooking, hv]
  · intro r hr
    rcases hv : isBookingTimeValid req.date req.startTime now with _ | b
    · simp [createBooking, hv] at hr
    · rcases b
      · simp [createBooking, hv] at hr
      · rcases hd : parseDate req.date with _ | ⟨y, mo, dd⟩
        · simp only [isBookingTimeValid, hd] at hv
          exact Option.noConfusion hv
        · rcases ht : parseTimeHM req.startTime with _ | ⟨hh, mm⟩
          · simp only [isBookingTimeValid, hd, ht] at hv
            exact Option.noConfusion hv
          · simp only [isBookingTimeValid, hd, ht, Option.some.injEq,
              decide_eq_true_eq] at hv
            exact ⟨y, mo, dd, hh, mm, rfl, rfl, hv⟩

/-- C10 witness: the malformed date 2024-13-01 yields BadRequest, a start
equal to the current instant yields BadRequest, and the accepted 11:00
request on an empty past implies its instant is strictly after now = 0. -/
theorem createBooking_time_check_strict_witness :
    createBooking [] fieldPricesW reqBadDate 7 "1" 0 2 "pay-1"
        (Except.ok invW) =
      (Except.error (Failure.badRequest "invalid booking time format"), []) ∧
    createBooking [] fieldPricesW reqAtNow 7 "1"
        (bookingInstant 2024 1 2 10 0) 2 "pay-1" (Except.ok invW) =
      (Except.error (Failure.badRequest "booking time cannot be in the past"),
        []) ∧
    (∃ y mo dd hh mm, parseDate reqEleven.date = some (y, mo, dd) ∧
      parseTimeHM reqEleven.startTime = some (hh, mm) ∧
      0 < bookingInstant y mo dd hh mm) := by
  have h1 := createBooking_time_check_strict [] fieldPricesW reqBadDate 7 "1"
    0 2 "pay-1" (Except.ok invW)
  have h2 := createBooking_time_check_strict [] fieldPricesW reqAtNow 7 "1"
    (bookingInstant 2024 1 2 10 0) 2 "pay-1" (Except.ok invW)
  have h3 := createBooking_time_check_strict [bkTen] fieldPricesW reqEleven 7
    "1" 0 2 "pay-1" (Except.ok invW)
  exact ⟨h1.1 rfl, h2.2.1 2024 1 2 10 0 rfl rfl (le_refl _), h3.2.2 invW rfl⟩

end Mpti
